import Mathlib

/-!
# pebble-ambient: the position engine and hand animator of `src/main.c`

A shallow embedding of `calculate`, `calculate_tick_marks`, `gpoint_setter`,
`init_animations`, the two destroy handlers and `animate`.

C `int` / `int32_t` values are modelled as `Int`; C's `/` and `%` are the truncating
`Int.tdiv` and `Int.tmod`.  A store into an `int16_t` field of a `GPoint` goes through
`wrap16`.  An array access outside its bounds yields `none`.
-/

namespace PebbleAmbient

/-! ## Constants of `pebble.h` -/

/-- The largest value that `sin_lookup` and `cos_lookup` return, `0xffff` in the SDK. -/
def TRIG_MAX_RATIO : Int := 0xffff

/-- The SDK's `TRIG_MAX_ANGLE` (`0x10000`): one full turn. -/
def TRIG_MAX_ANGLE : Int := 0x10000

/-- The SDK's `ANIMATION_NORMALIZED_MAX`: the progress value of a completed animation. -/
def ANIMATION_NORMALIZED_MAX : Int := 65535

/-- The SDK's `GColorBlackARGB8` (the colour bytes are those of the SDK's colour
definitions: two bits each of alpha, red, green, blue). -/
def GColorBlackARGB8 : Nat := 0b11000000
/-- The SDK's `GColorOxfordBlueARGB8`. -/
def GColorOxfordBlueARGB8 : Nat := 0b11000001
/-- The SDK's `GColorLibertyARGB8`. -/
def GColorLibertyARGB8 : Nat := 0b11010110
/-- The SDK's `GColorPictonBlueARGB8`. -/
def GColorPictonBlueARGB8 : Nat := 0b11011011
/-- The SDK's `GColorCelesteARGB8`. -/
def GColorCelesteARGB8 : Nat := 0b11101111

/-! ## Data of `main.c` -/

/-- The table `SKY_COLORS` (main.c lines 8-34), entry by entry. -/
def SKY_COLORS : List Nat := [
  GColorBlackARGB8,
  GColorBlackARGB8,
  GColorOxfordBlueARGB8,
  GColorOxfordBlueARGB8,
  GColorOxfordBlueARGB8,
  GColorLibertyARGB8,
  GColorLibertyARGB8,
  GColorLibertyARGB8,
  GColorPictonBlueARGB8,
  GColorPictonBlueARGB8,
  GColorCelesteARGB8,
  GColorCelesteARGB8,
  GColorCelesteARGB8,
  GColorCelesteARGB8,
  GColorCelesteARGB8,
  GColorPictonBlueARGB8,
  GColorPictonBlueARGB8,
  GColorLibertyARGB8,
  GColorLibertyARGB8,
  GColorLibertyARGB8,
  GColorOxfordBlueARGB8,
  GColorOxfordBlueARGB8,
  GColorOxfordBlueARGB8,
  GColorBlackARGB8,
  GColorBlackARGB8
]

/-- A `GPoint`: two `int16_t` coordinates. -/
structure GPoint where
  x : Int
  y : Int
deriving DecidableEq, Repr

def CENTER : GPoint := ⟨72, 84⟩
def RADIUS : Int := 70
def MINUTE_RADIUS : Int := 58
def HOUR_RADIUS : Int := 42
def STROKE_WIDTH : Int := 4
def TICK_LENGTH : Int := 4
def PLANET_OFFSET : Int := 7
def PLANET_SPACING : Int := 8
def EARTH_INDEX : Nat := 2
def MOON_ORBIT_RADIUS : Int := 5

/-- The fields of `struct tm` that `calculate` reads. -/
structure Tm where
  tm_hour : Int
  tm_min : Int
deriving DecidableEq, Repr

/-- What the environment provides independently of the time: `N_PLANETS` of `planets.h`
and the SDK's `cos_lookup` / `sin_lookup`.  Neither header is part of the sources, so
these are parameters of the model. -/
structure Host where
  N_PLANETS : Nat
  cos_lookup : Int → Int
  sin_lookup : Int → Int

/-- What `calculate` obtains at one instant: `localtime(&now)`, and the getters of
`planets.h` once `calculate_planet_time(now)` has run. -/
structure Now where
  now_tm : Tm
  get_planet_angle : Nat → Int
  get_moon_angle : Int

/-- Conversion of an `int` to `int16_t` (two's complement wrap), as done by a store into a
`GPoint` field. -/
def wrap16 (v : Int) : Int := (v + 32768) % 65536 - 32768

/-- The value lies in the range of a 32-bit signed integer. -/
def inInt32 (v : Int) : Prop := -2147483648 ≤ v ∧ v < 2147483648

/-- The value lies in the range of a 16-bit signed integer. -/
def inInt16 (v : Int) : Prop := -32768 ≤ v ∧ v < 32768

instance (v : Int) : Decidable (inInt32 v) := by unfold inInt32; infer_instance
instance (v : Int) : Decidable (inInt16 v) := by unfold inInt16; infer_instance

/-- The expression `c + trig * radius / TRIG_MAX_RATIO` that every coordinate computation
of `calculate` and `calculate_tick_marks` uses (`trig` is the value of `cos_lookup` or
`sin_lookup`). -/
def project (c trig radius : Int) : Int :=
  c + (trig * radius).tdiv TRIG_MAX_RATIO

/-- The local `angle` of `calculate_tick_marks` for loop index `i` (main.c line 58). -/
def tick_angle (i : Int) : Int := (TRIG_MAX_ANGLE * i).tdiv 12

/-- The local `minute_angle` of `calculate` (main.c line 92). -/
def minute_angle (now_tm : Tm) : Int :=
  (TRIG_MAX_ANGLE * now_tm.tm_min).tdiv 60 - TRIG_MAX_ANGLE.tdiv 4

/-- The local `hour_angle` of `calculate` (main.c line 93). -/
def hour_angle (now_tm : Tm) : Int :=
  (TRIG_MAX_ANGLE * ((now_tm.tm_hour.tmod 12) * 6 + now_tm.tm_min.tdiv 10)).tdiv (12 * 6)
    - TRIG_MAX_ANGLE.tdiv 4

/-- The read `SKY_COLORS[i]` with a C `int` index; `none` outside the table. -/
def sky_lookup (i : Int) : Option Nat :=
  if 0 ≤ i then SKY_COLORS[i.toNat]? else none

/-- The subject of a property animation: `&minute_location` or `&hour_location`. -/
inductive Hand where
  | minute
  | hour
deriving DecidableEq, Repr

/-- The two `.stopped` handlers that `animate` installs. -/
inductive StoppedHandler where
  | destroy_minute_animation
  | destroy_hour_animation
deriving DecidableEq, Repr

/-- The part of an SDK `PropertyAnimation` object that `main.c` touches. -/
structure PropertyAnimation where
  subject : Hand
  values_from : GPoint
  values_to : GPoint
  stopped : Option StoppedHandler
  scheduled : Bool
deriving DecidableEq, Repr

/-- The globals of `main.c`, together with the animation objects created so far (a handle
is an index into `animations`) and the log of `property_animation_destroy` calls. -/
structure State where
  sky_color : Nat
  planet_locations : List GPoint
  moon_location : GPoint
  minute_location : GPoint
  hour_location : GPoint
  minute_animation : Option Nat
  hour_animation : Option Nat
  animations : List PropertyAnimation
  destroyed : List Nat
  dirty : Nat
deriving DecidableEq, Repr

/-- The state at program start: zero-initialised statics, `planet_locations` of the
declared size `N_PLANETS`. -/
def initial_state (N_PLANETS : Nat) : State :=
  { sky_color := 0
    planet_locations := List.replicate N_PLANETS ⟨0, 0⟩
    moon_location := ⟨0, 0⟩
    minute_location := ⟨0, 0⟩
    hour_location := ⟨0, 0⟩
    minute_animation := none
    hour_animation := none
    animations := []
    destroyed := []
    dirty := 0 }

/-- One endpoint `TICK_MARKS[i][k]` as `calculate_tick_marks` computes it (main.c lines
59-62); `radius` is `RADIUS - STROKE_WIDTH / 2` for `k = 0` and `RADIUS - TICK_LENGTH` for
`k = 1`. -/
def tick_point (H : Host) (i : Int) (radius : Int) : GPoint :=
  { x := wrap16 (project CENTER.x (H.cos_lookup (tick_angle i)) radius)
    y := wrap16 (project CENTER.y (H.sin_lookup (tick_angle i)) radius) }

/-- The table `TICK_MARKS` that `calculate_tick_marks` fills (main.c lines 56-64). -/
def calculate_tick_marks (H : Host) : List (GPoint × GPoint) :=
  (List.range 12).map fun i =>
    (tick_point H (i : Int) (RADIUS - STROKE_WIDTH.tdiv 2),
     tick_point H (i : Int) (RADIUS - TICK_LENGTH))

/-- The write `planet_locations[i] = p`; `none` when `i` is outside the array. -/
def write_location (locs : List GPoint) (i : Nat) (p : GPoint) : Option (List GPoint) :=
  if i < locs.length then some (locs.set i p) else none

/-- The value stored in `planet_locations[i]` by one iteration of the loop of `calculate`
(main.c lines 82-85). -/
def planet_point (H : Host) (t : Now) (i : Nat) : GPoint :=
  let radius := PLANET_OFFSET + PLANET_SPACING * (i : Int)
  let angle := t.get_planet_angle i
  { x := wrap16 (project CENTER.x (H.cos_lookup angle) radius)
    y := wrap16 (project CENTER.y (H.sin_lookup angle) radius) }

/-- The first `n` iterations (`i = 0 .. n-1`) of the planet loop of `calculate`. -/
def planet_loop (H : Host) (t : Now) : Nat → List GPoint → Option (List GPoint)
  | 0, locs => some locs
  | n + 1, locs =>
    (planet_loop H t n locs).bind fun acc => write_location acc n (planet_point H t n)

/-- The value `calculate` stores in `minute_location` (main.c lines 94-95). -/
def minute_position (H : Host) (now_tm : Tm) : GPoint :=
  { x := wrap16 (project CENTER.x (H.cos_lookup (minute_angle now_tm)) MINUTE_RADIUS)
    y := wrap16 (project CENTER.y (H.sin_lookup (minute_angle now_tm)) MINUTE_RADIUS) }

/-- The value `calculate` stores in `hour_location` (main.c lines 96-97). -/
def hour_position (H : Host) (now_tm : Tm) : GPoint :=
  { x := wrap16 (project CENTER.x (H.cos_lookup (hour_angle now_tm)) HOUR_RADIUS)
    y := wrap16 (project CENTER.y (H.sin_lookup (hour_angle now_tm)) HOUR_RADIUS) }

/-- The function `calculate` (main.c lines 72-98). -/
def calculate (H : Host) (t : Now) (s : State) : Option State :=
  (sky_lookup t.now_tm.tm_hour).bind fun sky =>
  (planet_loop H t H.N_PLANETS s.planet_locations).bind fun locs =>
  locs[EARTH_INDEX]?.bind fun earth =>
  let angle := t.get_moon_angle
  some { s with
    sky_color := sky
    planet_locations := locs
    moon_location :=
      { x := wrap16 (project earth.x (H.cos_lookup angle) MOON_ORBIT_RADIUS)
        y := wrap16 (project earth.y (H.sin_lookup angle) MOON_ORBIT_RADIUS) }
    minute_location := minute_position H t.now_tm
    hour_location := hour_position H t.now_tm }

/-- The function `gpoint_setter` (main.c lines 66-70): overwrite the subject, mark the
layer dirty. -/
def gpoint_setter (subject : Hand) (gpoint : GPoint) (s : State) : State :=
  match subject with
  | Hand.minute => { s with minute_location := gpoint, dirty := s.dirty + 1 }
  | Hand.hour => { s with hour_location := gpoint, dirty := s.dirty + 1 }

/-- Modelled from the spec: the interpolation of one coordinate by the SDK's progress
update, which is not part of the sources.  The spec (4.3) has the animator "interpolate
linearly from `from` to `to`", with progress `distance_normalized` out of
`ANIMATION_NORMALIZED_MAX` and integer (truncating) division. -/
def interpolate (distance_normalized a b : Int) : Int :=
  a + (distance_normalized * (b - a)).tdiv ANIMATION_NORMALIZED_MAX

/-- Modelled from the spec: `property_animation_update_gpoint`, the SDK function that
`init_animations` installs as `.update`; it is not part of the sources.  The spec (4.3):
"on every progress tick, write the interpolated PixelPoint into the hand's current
position", here through the installed setter `gpoint_setter`.  `none` when the handle names
no animation object. -/
def property_animation_update_gpoint (h : Nat) (distance_normalized : Int) (s : State) :
    Option State :=
  s.animations[h]?.map fun a =>
    gpoint_setter a.subject
      { x := interpolate distance_normalized a.values_from.x a.values_to.x
        y := interpolate distance_normalized a.values_from.y a.values_to.y } s

/-- The function `init_animations` (main.c lines 100-112): create two animation objects
and store their handles in the globals. -/
def init_animations (s : State) : State :=
  let m := s.animations.length
  { s with
    animations := s.animations ++
      [{ subject := Hand.minute, values_from := ⟨0, 0⟩, values_to := ⟨0, 0⟩,
         stopped := none, scheduled := false },
       { subject := Hand.hour, values_from := ⟨0, 0⟩, values_to := ⟨0, 0⟩,
         stopped := none, scheduled := false }]
    minute_animation := some m
    hour_animation := some (m + 1) }

/-- Apply `f` to the animation object behind a handle; `none` for `NULL` or a handle that
names no object. -/
def modify_animation (h : Option Nat) (f : PropertyAnimation → PropertyAnimation)
    (s : State) : Option State :=
  h.bind fun i => s.animations[i]?.map fun a =>
    { s with animations := s.animations.set i (f a) }

/-- The SDK's `property_animation_from(anim, &value, size, true)`: set the start value. -/
def property_animation_from (h : Option Nat) (v : GPoint) (s : State) : Option State :=
  modify_animation h (fun a => { a with values_from := v }) s

/-- The SDK's `property_animation_to(anim, &value, size, true)`: set the end value. -/
def property_animation_to (h : Option Nat) (v : GPoint) (s : State) : Option State :=
  modify_animation h (fun a => { a with values_to := v }) s

/-- The SDK's `animation_set_handlers` with only `.stopped` given. -/
def animation_set_handlers (h : Option Nat) (stopped : StoppedHandler) (s : State) :
    Option State :=
  modify_animation h (fun a => { a with stopped := some stopped }) s

/-- The SDK's `animation_schedule`. -/
def animation_schedule (h : Option Nat) (s : State) : Option State :=
  modify_animation h (fun a => { a with scheduled := true }) s

/-- The SDK's `property_animation_destroy`: recorded in the log; `NULL` is ignored. -/
def property_animation_destroy (h : Option Nat) (s : State) : State :=
  match h with
  | some i => { s with destroyed := s.destroyed ++ [i] }
  | none => s

/-- The handler `destroy_minute_animation` (main.c lines 114-116): it destroys what the
global `minute_animation` holds, whichever animation stopped. -/
def destroy_minute_animation (s : State) : State :=
  property_animation_destroy s.minute_animation s

/-- The handler `destroy_hour_animation` (main.c lines 118-120). -/
def destroy_hour_animation (s : State) : State :=
  property_animation_destroy s.hour_animation s

/-- The function `animate` (main.c lines 122-146). -/
def animate (H : Host) (t : Now) (s : State) : Option State :=
  let s := init_animations s
  (property_animation_from s.minute_animation s.minute_location s).bind fun s =>
  (property_animation_from s.hour_animation s.hour_location s).bind fun s =>
  (calculate H t s).bind fun s =>
  (property_animation_to s.minute_animation s.minute_location s).bind fun s =>
  (property_animation_to s.hour_animation s.hour_location s).bind fun s =>
  (animation_set_handlers s.minute_animation StoppedHandler.destroy_minute_animation s).bind
    fun s =>
  (animation_set_handlers s.hour_animation StoppedHandler.destroy_hour_animation s).bind
    fun s =>
  (animation_schedule s.minute_animation s).bind fun s =>
  animation_schedule s.hour_animation s

/-- The events the host delivers after start-up. -/
inductive Event where
  /-- The minute tick: `tick_handler` runs `animate()` at the instant `t`. -/
  | tick (t : Now)
  /-- A progress update of animation `h`. -/
  | update (h : Nat) (distance_normalized : Int)
  /-- Animation `h` stopped: its `.stopped` handler runs. -/
  | stopped (h : Nat)

/-- The reaction of the program to one event. -/
def step (H : Host) (s : State) : Event → Option State
  | Event.tick t => animate H t s
  | Event.update h d => property_animation_update_gpoint h d s
  | Event.stopped h =>
    s.animations[h]?.map fun a =>
      match a.stopped with
      | some StoppedHandler.destroy_minute_animation => destroy_minute_animation s
      | some StoppedHandler.destroy_hour_animation => destroy_hour_animation s
      | none => s

/-- The reaction to a sequence of events, in order. -/
def run (H : Host) : State → List Event → Option State
  | s, [] => some s
  | s, e :: es => (step H s e).bind fun s1 => run H s1 es

/-- Start-up (`init`, main.c lines 230-231 as far as the globals go): the first
`calculate()`. -/
def init (H : Host) (t : Now) : Option State :=
  calculate H t (initial_state H.N_PLANETS)

/-- The handle of the animation of a hand, given the handles `m` of the minute and `h` of
the hour animation. -/
def handle_of (m h : Nat) : Hand → Nat
  | Hand.minute => m
  | Hand.hour => h

/-- Progress updates, each of the minute or of the hour animation, as events. -/
def update_events (m h : Nat) (ups : List (Hand × Int)) : List Event :=
  ups.map fun u => Event.update (handle_of m h u.1) u.2

/-! ## Sample inputs used to instantiate the theorems -/

/-- A host with eight planets whose trigonometric lookups are sawtooth functions of the
angle with values in `[-32768, 32767]`, inside `[- TRIG_MAX_RATIO, TRIG_MAX_RATIO]`. -/
def sample_host : Host :=
  { N_PLANETS := 8
    cos_lookup := fun a => a % 65536 - 32768
    sin_lookup := fun a => 32767 - a % 65536 }

/-- The instant `hour:minute` with every planet at angle `1000 * i` and the moon at
angle `5000`. -/
def sample_now (hour minute : Int) : Now :=
  { now_tm := ⟨hour, minute⟩
    get_planet_angle := fun i => 1000 * (i : Int)
    get_moon_angle := 5000 }

/-- The state after start-up at 08:00 on the sample host. -/
def sample_state : State :=
  (init sample_host (sample_now 8 0)).getD (initial_state 8)

/-! ## Arithmetic of the angles -/

/-- For a non-negative hour and minute the truncating operations of `hour_angle` agree
with the flooring ones. -/
theorem hour_angle_eq (h m : Int) (hh : 0 ≤ h) (hm : 0 ≤ m) :
    hour_angle ⟨h, m⟩ = 65536 * (h % 12 * 6 + m / 10) / 72 - 16384 := by
  have h4 : (65536 : Int).tdiv 4 = 16384 := by decide
  have e1 : h.tmod 12 = h % 12 := Int.tmod_eq_emod hh (by norm_num)
  have e2 : m.tdiv 10 = m / 10 := Int.tdiv_eq_ediv hm (by norm_num)
  have n1 : 0 ≤ h % 12 := Int.emod_nonneg h (by norm_num)
  have n2 : 0 ≤ m / 10 := Int.ediv_nonneg hm (by norm_num)
  have n3 : (0 : Int) ≤ 65536 * (h % 12 * 6 + m / 10) := by positivity
  simp only [hour_angle, TRIG_MAX_ANGLE, e1, e2, h4]
  rw [Int.tdiv_eq_ediv n3 (by norm_num)]
  norm_num

/-- For a non-negative minute the truncating division of `minute_angle` agrees with the
flooring one. -/
theorem minute_angle_eq (h m : Int) (hm : 0 ≤ m) :
    minute_angle ⟨h, m⟩ = 65536 * m / 60 - 16384 := by
  have h4 : (65536 : Int).tdiv 4 = 16384 := by decide
  have n3 : (0 : Int) ≤ 65536 * m := by positivity
  simp only [minute_angle, TRIG_MAX_ANGLE, h4]
  rw [Int.tdiv_eq_ediv n3 (by norm_num)]

/-- For a non-negative index the truncating division of `tick_angle` agrees with the
flooring one. -/
theorem tick_angle_eq (i : Int) (hi : 0 ≤ i) : tick_angle i = 65536 * i / 12 := by
  have n3 : (0 : Int) ≤ 65536 * i := by positivity
  simp only [tick_angle, TRIG_MAX_ANGLE]
  rw [Int.tdiv_eq_ediv n3 (by norm_num)]

/-- C1: for every hour in 0..23 and minute in 0..58 with `m % 10 ≠ 9` the hour angle of
`calculate` is the same at `(h, m)` and `(h, m + 1)`, and it is
`TRIG_MAX_ANGLE * ((h % 12) * 6 + m / 10) / 72 - TRIG_MAX_ANGLE / 4`, where on these
inputs truncating and flooring division coincide. -/
theorem hour_angle_steps_every_ten_minutes (h m : Int)
    (hh : 0 ≤ h ∧ h ≤ 23) (hm : 0 ≤ m ∧ m ≤ 58) (h9 : m % 10 ≠ 9) :
    hour_angle ⟨h, m⟩ = hour_angle ⟨h, m + 1⟩ ∧
    hour_angle ⟨h, m⟩
      = TRIG_MAX_ANGLE * ((h % 12) * 6 + m / 10) / 72 - TRIG_MAX_ANGLE / 4 := by
  rw [hour_angle_eq h m hh.1 hm.1, hour_angle_eq h (m + 1) hh.1 (by omega)]
  simp only [TRIG_MAX_ANGLE]
  constructor
  · have e : (m + 1) / 10 = m / 10 := by omega
    rw [e]
  · norm_num

/-- The C1 statement at 08:00. -/
theorem hour_angle_steps_every_ten_minutes_witness :
    hour_angle ⟨8, 0⟩ = hour_angle ⟨8, 0 + 1⟩ ∧
    hour_angle ⟨8, 0⟩
      = TRIG_MAX_ANGLE * (((8 : Int) % 12) * 6 + 0 / 10) / 72 - TRIG_MAX_ANGLE / 4 :=
  hour_angle_steps_every_ten_minutes 8 0 (by decide) (by decide) (by decide)

/-- C3, counterexample: at 00:00 both angles are `-16384`, below the domain
`[0, TRIG_MAX_ANGLE)`. -/
theorem angles_negative_at_midnight :
    minute_angle ⟨0, 0⟩ = -16384 ∧ hour_angle ⟨0, 0⟩ = -16384 ∧
    ¬ (0 ≤ minute_angle ⟨0, 0⟩ ∧ minute_angle ⟨0, 0⟩ < TRIG_MAX_ANGLE) ∧
    ¬ (0 ≤ hour_angle ⟨0, 0⟩ ∧ hour_angle ⟨0, 0⟩ < TRIG_MAX_ANGLE) := by
  decide

/-- C3, amended: for every hour in 0..23 and minute in 0..59 both angles lie in the
circular domain shifted down by the quarter turn,
`-TRIG_MAX_ANGLE / 4 ≤ angle < TRIG_MAX_ANGLE - TRIG_MAX_ANGLE / 4`. -/
theorem angles_in_shifted_domain (h m : Int)
    (hh : 0 ≤ h ∧ h ≤ 23) (hm : 0 ≤ m ∧ m ≤ 59) :
    (-(TRIG_MAX_ANGLE / 4) ≤ minute_angle ⟨h, m⟩ ∧
      minute_angle ⟨h, m⟩ < TRIG_MAX_ANGLE - TRIG_MAX_ANGLE / 4) ∧
    (-(TRIG_MAX_ANGLE / 4) ≤ hour_angle ⟨h, m⟩ ∧
      hour_angle ⟨h, m⟩ < TRIG_MAX_ANGLE - TRIG_MAX_ANGLE / 4) := by
  rw [hour_angle_eq h m hh.1 hm.1, minute_angle_eq h m hm.1]
  simp only [TRIG_MAX_ANGLE]
  omega

/-- The amended C3 statement at 23:59. -/
theorem angles_in_shifted_domain_witness :
    (-(TRIG_MAX_ANGLE / 4) ≤ minute_angle ⟨23, 59⟩ ∧
      minute_angle ⟨23, 59⟩ < TRIG_MAX_ANGLE - TRIG_MAX_ANGLE / 4) ∧
    (-(TRIG_MAX_ANGLE / 4) ≤ hour_angle ⟨23, 59⟩ ∧
      hour_angle ⟨23, 59⟩ < TRIG_MAX_ANGLE - TRIG_MAX_ANGLE / 4) :=
  angles_in_shifted_domain 23 59 (by decide) (by decide)

/-- C10: at `h:00` the hour angle is congruent modulo `TRIG_MAX_ANGLE` to the tick angle
of index `((h % 12) + 9) % 12`, and at minute `5 * k` the minute angle is congruent to the
tick angle of index `(k + 9) % 12`; both indices are loop indices of
`calculate_tick_marks`. -/
theorem hands_point_at_tick_marks (h k : Int)
    (hh : 0 ≤ h ∧ h ≤ 23) (hk : 0 ≤ k ∧ k ≤ 11) :
    (0 ≤ ((h.tmod 12) + 9).tmod 12 ∧ ((h.tmod 12) + 9).tmod 12 < 12 ∧
      Int.ModEq TRIG_MAX_ANGLE (hour_angle ⟨h, 0⟩)
        (tick_angle (((h.tmod 12) + 9).tmod 12))) ∧
    (0 ≤ (k + 9).tmod 12 ∧ (k + 9).tmod 12 < 12 ∧
      Int.ModEq TRIG_MAX_ANGLE (minute_angle ⟨h, 5 * k⟩) (tick_angle ((k + 9).tmod 12))) := by
  obtain ⟨h0, h1⟩ := hh
  obtain ⟨k0, k1⟩ := hk
  refine ⟨?_, ?_⟩
  · simp only [Int.ModEq]
    interval_cases h <;> decide
  · rw [minute_angle_eq h (5 * k) (by omega)]
    simp only [Int.ModEq]
    interval_cases k <;> decide

/-- The C10 statement at hour 8 and minute 5. -/
theorem hands_point_at_tick_marks_witness :
    (0 ≤ (((8 : Int).tmod 12) + 9).tmod 12 ∧ (((8 : Int).tmod 12) + 9).tmod 12 < 12 ∧
      Int.ModEq TRIG_MAX_ANGLE (hour_angle ⟨8, 0⟩)
        (tick_angle ((((8 : Int).tmod 12) + 9).tmod 12))) ∧
    (0 ≤ ((1 : Int) + 9).tmod 12 ∧ ((1 : Int) + 9).tmod 12 < 12 ∧
      Int.ModEq TRIG_MAX_ANGLE (minute_angle ⟨8, 5 * 1⟩) (tick_angle (((1 : Int) + 9).tmod 12))) :=
  hands_point_at_tick_marks 8 1 (by decide) (by decide)

/-! ## The sky table and `calculate` -/

/-- For an hour in 0..23 the read `SKY_COLORS[hour]` is inside the table. -/
theorem sky_lookup_some (hour : Int) (hh : 0 ≤ hour ∧ hour ≤ 23) :
    ∃ c, sky_lookup hour = some c ∧ SKY_COLORS[hour.toNat]? = some c := by
  obtain ⟨h0, h1⟩ := hh
  interval_cases hour <;> exact ⟨_, rfl, rfl⟩

/-- The planet loop run for `n` iterations on an array of at least `n` cells succeeds,
fills the cells `0 .. n-1` and leaves the others. -/
theorem planet_loop_spec (H : Host) (t : Now) (locs : List GPoint) (n : Nat)
    (hn : n ≤ locs.length) :
    ∃ acc, planet_loop H t n locs = some acc ∧ acc.length = locs.length ∧
      (∀ i, i < n → acc[i]? = some (planet_point H t i)) ∧
      (∀ i, n ≤ i → acc[i]? = locs[i]?) := by
  induction n with
  | zero => exact ⟨locs, rfl, rfl, fun i hi => absurd hi (Nat.not_lt_zero i), fun _ _ => rfl⟩
  | succ n ih =>
    obtain ⟨acc, hacc, hlen, hlo, hhi⟩ := ih (Nat.le_of_succ_le hn)
    have hlt : n < acc.length := by omega
    refine ⟨acc.set n (planet_point H t n), ?_, ?_, ?_, ?_⟩
    · simp [planet_loop, hacc, write_location, hlt]
    · simp [hlen]
    · intro i hi
      by_cases hin : i = n
      · subst hin
        simp [hlt]
      · rw [List.getElem?_set_ne (Ne.symm hin)]
        exact hlo i (by omega)
    · intro i hi
      rw [List.getElem?_set_ne (by omega)]
      exact hhi i (by omega)

/-- On a valid hour, with `EARTH_INDEX` inside `planet_locations` and the array of its
declared size, `calculate` returns, and this is the state it returns. -/
theorem calculate_some (H : Host) (t : Now) (s : State)
    (hh : 0 ≤ t.now_tm.tm_hour ∧ t.now_tm.tm_hour ≤ 23)
    (hN : EARTH_INDEX < H.N_PLANETS) (hl : s.planet_locations.length = H.N_PLANETS) :
    ∃ sky locs, SKY_COLORS[t.now_tm.tm_hour.toNat]? = some sky ∧
      locs.length = H.N_PLANETS ∧
      (∀ i, i < H.N_PLANETS → locs[i]? = some (planet_point H t i)) ∧
      calculate H t s = some { s with
        sky_color := sky
        planet_locations := locs
        moon_location :=
          { x := wrap16 (project (planet_point H t EARTH_INDEX).x
                  (H.cos_lookup t.get_moon_angle) MOON_ORBIT_RADIUS)
            y := wrap16 (project (planet_point H t EARTH_INDEX).y
                  (H.sin_lookup t.get_moon_angle) MOON_ORBIT_RADIUS) }
        minute_location := minute_position H t.now_tm
        hour_location := hour_position H t.now_tm } := by
  obtain ⟨sky, hsky, hsky2⟩ := sky_lookup_some _ hh
  obtain ⟨locs, hloop, hlen, hlo, -⟩ :=
    planet_loop_spec H t s.planet_locations H.N_PLANETS (le_of_eq hl.symm)
  refine ⟨sky, locs, hsky2, hlen.trans hl, hlo, ?_⟩
  simp [calculate, hsky, hloop, hlo EARTH_INDEX hN]

/-- C4, counterexample: the table has 25 entries, not 24. -/
theorem sky_colors_length_is_not_24 :
    SKY_COLORS.length = 25 ∧ ¬ (SKY_COLORS.length = 24) := by
  decide

/-- C4, amended: the table has 25 entries; at every hour in 0..23 `calculate` selects the
entry whose index is the hour, so entries 0..23 are the tints of the hours 0..23 and the
entry at index 24 is selected at no hour. -/
theorem sky_colors_entry_per_hour (H : Host) (t : Now) (s : State)
    (hh : 0 ≤ t.now_tm.tm_hour ∧ t.now_tm.tm_hour ≤ 23)
    (hN : EARTH_INDEX < H.N_PLANETS) (hl : s.planet_locations.length = H.N_PLANETS) :
    SKY_COLORS.length = 25 ∧
    ∃ s1, calculate H t s = some s1 ∧
      SKY_COLORS[t.now_tm.tm_hour.toNat]? = some s1.sky_color ∧
      t.now_tm.tm_hour.toNat < 24 := by
  obtain ⟨sky, locs, hsky, -, -, hc⟩ := calculate_some H t s hh hN hl
  exact ⟨by decide, _, hc, hsky, by omega⟩

/-- The amended C4 statement at 23:59 on the sample host. -/
theorem sky_colors_entry_per_hour_witness :
    SKY_COLORS.length = 25 ∧
    ∃ s1, calculate sample_host (sample_now 23 59) (initial_state 8) = some s1 ∧
      SKY_COLORS[(sample_now 23 59).now_tm.tm_hour.toNat]? = some s1.sky_color ∧
      (sample_now 23 59).now_tm.tm_hour.toNat < 24 :=
  sky_colors_entry_per_hour sample_host (sample_now 23 59) (initial_state 8)
    (by decide) (by decide) (by decide)

/-- C5: for every hour in 0..23 (0 and 23 included) the read `SKY_COLORS[hour]` of
`calculate` is inside the table, and two runs of `calculate` at instants with the same
hour, whatever their minutes and the rest of their inputs, store the same sky colour. -/
theorem sky_color_depends_on_hour_only (H : Host) (t1 t2 : Now) (s1 s2 : State)
    (hh : 0 ≤ t1.now_tm.tm_hour ∧ t1.now_tm.tm_hour ≤ 23)
    (heq : t2.now_tm.tm_hour = t1.now_tm.tm_hour)
    (hN : EARTH_INDEX < H.N_PLANETS)
    (hl1 : s1.planet_locations.length = H.N_PLANETS)
    (hl2 : s2.planet_locations.length = H.N_PLANETS) :
    sky_lookup t1.now_tm.tm_hour ≠ none ∧
    ∃ r1 r2, calculate H t1 s1 = some r1 ∧ calculate H t2 s2 = some r2 ∧
      sky_lookup t1.now_tm.tm_hour = some r1.sky_color ∧
      r2.sky_color = r1.sky_color := by
  obtain ⟨c, hc, hc2⟩ := sky_lookup_some _ hh
  obtain ⟨sky1, locs1, hsky1, -, -, hr1⟩ := calculate_some H t1 s1 hh hN hl1
  obtain ⟨sky2, locs2, hsky2, -, -, hr2⟩ := calculate_some H t2 s2 (heq ▸ hh) hN hl2
  rw [heq, hsky1] at hsky2
  rw [hc2] at hsky1
  have e1 : c = sky1 := Option.some.inj hsky1
  have e2 : sky1 = sky2 := Option.some.inj hsky2
  refine ⟨by simp [hc], _, _, hr1, hr2, ?_, ?_⟩
  · simp [hc, e1]
  · simp [e2]

/-- The C5 statement for 23:00 and 23:59 on the sample host. -/
theorem sky_color_depends_on_hour_only_witness :
    sky_lookup (sample_now 23 0).now_tm.tm_hour ≠ none ∧
    ∃ r1 r2, calculate sample_host (sample_now 23 0) (initial_state 8) = some r1 ∧
      calculate sample_host (sample_now 23 59) (initial_state 8) = some r2 ∧
      sky_lookup (sample_now 23 0).now_tm.tm_hour = some r1.sky_color ∧
      r2.sky_color = r1.sky_color :=
  sky_color_depends_on_hour_only sample_host (sample_now 23 0) (sample_now 23 59)
    (initial_state 8) (initial_state 8) (by decide) rfl (by decide) (by decide) (by decide)

/-- C6: at 08:00 `calculate` stores `SKY_COLORS[8]`, which differs from `SKY_COLORS[0]`
and from `SKY_COLORS[23]`; the minute angle is `-TRIG_MAX_ANGLE / 4`, the value it has at
minute 0 of every hour; the hour angle is `TRIG_MAX_ANGLE * 48 / 72 - TRIG_MAX_ANGLE / 4`. -/
theorem eight_o_clock (H : Host) (t : Now) (s : State) (hour : Int)
    (ht : t.now_tm = ⟨8, 0⟩)
    (hN : EARTH_INDEX < H.N_PLANETS) (hl : s.planet_locations.length = H.N_PLANETS) :
    (∃ s1, calculate H t s = some s1 ∧ SKY_COLORS[8]? = some s1.sky_color ∧
      SKY_COLORS[0]? ≠ some s1.sky_color ∧ SKY_COLORS[23]? ≠ some s1.sky_color) ∧
    minute_angle t.now_tm = (-TRIG_MAX_ANGLE).tdiv 4 ∧
    minute_angle ⟨hour, 0⟩ = minute_angle t.now_tm ∧
    hour_angle t.now_tm = (TRIG_MAX_ANGLE * 48).tdiv 72 - TRIG_MAX_ANGLE.tdiv 4 := by
  have hh : 0 ≤ t.now_tm.tm_hour ∧ t.now_tm.tm_hour ≤ 23 := by rw [ht]; decide
  obtain ⟨sky, locs, hsky, -, -, hc⟩ := calculate_some H t s hh hN hl
  rw [ht] at hsky
  have e8 : sky = GColorPictonBlueARGB8 := by
    have h8 : SKY_COLORS[(8 : Int).toNat]? = some GColorPictonBlueARGB8 := by decide
    exact (Option.some.inj (hsky.symm.trans h8))
  refine ⟨⟨_, hc, ?_, ?_, ?_⟩, ?_, ?_, ?_⟩
  · simp only [e8]; decide
  · simp only [e8]; decide
  · simp only [e8]; decide
  · rw [ht]; decide
  · rw [ht]
    rfl
  · rw [ht]; decide

/-- The C6 statement on the sample host, compared with hour 17. -/
theorem eight_o_clock_witness :
    (∃ s1, calculate sample_host (sample_now 8 0) (initial_state 8) = some s1 ∧
      SKY_COLORS[8]? = some s1.sky_color ∧
      SKY_COLORS[0]? ≠ some s1.sky_color ∧ SKY_COLORS[23]? ≠ some s1.sky_color) ∧
    minute_angle (sample_now 8 0).now_tm = (-TRIG_MAX_ANGLE).tdiv 4 ∧
    minute_angle ⟨17, 0⟩ = minute_angle (sample_now 8 0).now_tm ∧
    hour_angle (sample_now 8 0).now_tm
      = (TRIG_MAX_ANGLE * 48).tdiv 72 - TRIG_MAX_ANGLE.tdiv 4 :=
  eight_o_clock sample_host (sample_now 8 0) (initial_state 8) 17 rfl (by decide)
    (by decide)

/-! ## Ranges of the intermediate values -/

/-- A value in the `int16_t` range is stored unchanged. -/
theorem wrap16_of_inInt16 (v : Int) (hv : inInt16 v) : wrap16 v = v := by
  obtain ⟨h0, h1⟩ := hv
  unfold wrap16
  omega

/-- With a trig value in `[- TRIG_MAX_RATIO, TRIG_MAX_RATIO]` and a non-negative radius,
the truncated quotient `trig * radius / TRIG_MAX_RATIO` lies in `[-radius, radius]`. -/
theorem scaled_radius_bound (trig radius : Int)
    (ht : - TRIG_MAX_RATIO ≤ trig ∧ trig ≤ TRIG_MAX_RATIO) (hr : 0 ≤ radius) :
    -radius ≤ (trig * radius).tdiv TRIG_MAX_RATIO ∧
    (trig * radius).tdiv TRIG_MAX_RATIO ≤ radius := by
  obtain ⟨ht0, ht1⟩ := ht
  simp only [ TRIG_MAX_RATIO] at ht0 ht1 ⊢
  rcases le_total 0 trig with hpos | hneg
  · have p0 : 0 ≤ trig * radius := mul_nonneg hpos hr
    have p1 : trig * radius ≤ 65535 * radius := mul_le_mul_of_nonneg_right ht1 hr
    rw [Int.tdiv_eq_ediv p0 (by norm_num)]
    generalize trig * radius = p at p0 p1
    omega
  · have p0 : 0 ≤ (-trig) * radius := mul_nonneg (by omega) hr
    have p1 : (-trig) * radius ≤ 65535 * radius :=
      mul_le_mul_of_nonneg_right (by omega) hr
    have e : trig * radius = -((-trig) * radius) := by ring
    rw [e, Int.neg_tdiv, Int.tdiv_eq_ediv p0 (by norm_num)]
    generalize (-trig) * radius = p at p0 p1
    omega

/-- Under the same conditions the product `trig * radius` stays within
`[-65535 * radius, 65535 * radius]`. -/
theorem trig_product_bound (trig radius : Int)
    (ht : - TRIG_MAX_RATIO ≤ trig ∧ trig ≤ TRIG_MAX_RATIO) (hr : 0 ≤ radius) :
    -(65535 * radius) ≤ trig * radius ∧ trig * radius ≤ 65535 * radius := by
  obtain ⟨ht0, ht1⟩ := ht
  simp only [ TRIG_MAX_RATIO] at ht0 ht1
  have p1 : trig * radius ≤ 65535 * radius := mul_le_mul_of_nonneg_right ht1 hr
  have p2 : (-65535) * radius ≤ trig * radius := mul_le_mul_of_nonneg_right ht0 hr
  constructor <;> linarith

/-- A projected coordinate is within `radius` of its centre coordinate. -/
theorem project_bound (c trig radius : Int)
    (ht : - TRIG_MAX_RATIO ≤ trig ∧ trig ≤ TRIG_MAX_RATIO) (hr : 0 ≤ radius) :
    c - radius ≤ project c trig radius ∧ project c trig radius ≤ c + radius := by
  obtain ⟨h0, h1⟩ := scaled_radius_bound trig radius ht hr
  unfold project
  omega

/-- C8: for every hour in 0..23, minute in 0..59, tick index in 0..11, trig values in
`[- TRIG_MAX_RATIO, TRIG_MAX_RATIO]` and every radius the code uses (hands 58 and 42, tick
endpoints 68 and 66, moon 5, planet orbits `7 + 8 * j` up to 70), the products and the
angles of `calculate` and `calculate_tick_marks` fit 32 bits, every coordinate projected
around `CENTER` is within `radius` of the centre coordinate and fits 16 bits, and so does
the moon coordinate projected around the Earth coordinate. -/
theorem no_overflow (hour minute i trig trig2 radius c : Int)
    (hh : 0 ≤ hour ∧ hour ≤ 23) (hm : 0 ≤ minute ∧ minute ≤ 59) (hi : 0 ≤ i ∧ i ≤ 11)
    (ht : - TRIG_MAX_RATIO ≤ trig ∧ trig ≤ TRIG_MAX_RATIO)
    (ht2 : - TRIG_MAX_RATIO ≤ trig2 ∧ trig2 ≤ TRIG_MAX_RATIO)
    (hr : radius ∈ [MINUTE_RADIUS, HOUR_RADIUS, RADIUS - STROKE_WIDTH.tdiv 2,
            RADIUS - TICK_LENGTH, MOON_ORBIT_RADIUS] ∨
          ∃ j : Int, 0 ≤ j ∧ radius = PLANET_OFFSET + PLANET_SPACING * j ∧ radius ≤ 70)
    (hc : c = CENTER.x ∨ c = CENTER.y) :
    (inInt32 (TRIG_MAX_ANGLE * minute) ∧
      inInt32 (TRIG_MAX_ANGLE * ((hour.tmod 12) * 6 + minute.tdiv 10)) ∧
      inInt32 (TRIG_MAX_ANGLE * i) ∧
      inInt32 (minute_angle ⟨hour, minute⟩) ∧ inInt32 (hour_angle ⟨hour, minute⟩) ∧
      inInt32 (tick_angle i)) ∧
    inInt32 (trig * radius) ∧
    (|project c trig radius - c| ≤ radius ∧ inInt16 (project c trig radius) ∧
      wrap16 (project c trig radius) = project c trig radius) ∧
    (|project (project c trig2 (PLANET_OFFSET + PLANET_SPACING * (EARTH_INDEX : Int)))
          trig MOON_ORBIT_RADIUS
        - project c trig2 (PLANET_OFFSET + PLANET_SPACING * (EARTH_INDEX : Int))|
        ≤ MOON_ORBIT_RADIUS ∧
      inInt16 (project (project c trig2 (PLANET_OFFSET + PLANET_SPACING * (EARTH_INDEX : Int)))
          trig MOON_ORBIT_RADIUS)) := by
  have hr0 : 0 ≤ radius ∧ radius ≤ 70 := by
    rcases hr with hr | ⟨j, hj, rfl, hle⟩
    · simp only [MINUTE_RADIUS, HOUR_RADIUS, RADIUS, STROKE_WIDTH, TICK_LENGTH,
        MOON_ORBIT_RADIUS, List.mem_cons, List.mem_singleton, List.not_mem_nil,
        or_false] at hr
      have h2 : (4 : Int).tdiv 2 = 2 := by decide
      rw [h2] at hr
      omega
    · simp only [PLANET_OFFSET, PLANET_SPACING] at hle ⊢
      omega
  obtain ⟨hr1, hr2⟩ := hr0
  have e1 : hour.tmod 12 = hour % 12 := Int.tmod_eq_emod hh.1 (by norm_num)
  have e2 : minute.tdiv 10 = minute / 10 := Int.tdiv_eq_ediv hm.1 (by norm_num)
  refine ⟨?_, ?_, ?_, ?_⟩
  · rw [e1, e2, minute_angle_eq hour minute hm.1, hour_angle_eq hour minute hh.1 hm.1,
      tick_angle_eq i hi.1]
    simp only [inInt32, TRIG_MAX_ANGLE]
    omega
  · obtain ⟨p0, p1⟩ := trig_product_bound trig radius ht hr1
    simp only [inInt32]
    omega
  · obtain ⟨p0, p1⟩ := project_bound c trig radius ht hr1
    have hc2 : c = 72 ∨ c = 84 := hc
    have h16 : inInt16 (project c trig radius) := by
      simp only [inInt16]
      omega
    exact ⟨abs_le.mpr ⟨by omega, by omega⟩, h16, wrap16_of_inInt16 _ h16⟩
  · have hc2 : c = 72 ∨ c = 84 := hc
    have he : PLANET_OFFSET + PLANET_SPACING * (EARTH_INDEX : Int) = 23 := by decide
    rw [he]
    obtain ⟨q0, q1⟩ := project_bound c trig2 23 ht2 (by norm_num)
    obtain ⟨p0, p1⟩ := project_bound (project c trig2 23) trig MOON_ORBIT_RADIUS ht
      (by decide)
    simp only [MOON_ORBIT_RADIUS] at p0 p1 ⊢
    exact ⟨abs_le.mpr ⟨by omega, by omega⟩, by simp only [inInt16]; omega⟩

/-- The C8 statement at 23:59, tick 11, extreme trig values, radius 68 and centre 72. -/
theorem no_overflow_witness :
    (inInt32 (TRIG_MAX_ANGLE * 59) ∧
      inInt32 (TRIG_MAX_ANGLE * (((23 : Int).tmod 12) * 6 + (59 : Int).tdiv 10)) ∧
      inInt32 (TRIG_MAX_ANGLE * 11) ∧
      inInt32 (minute_angle ⟨23, 59⟩) ∧ inInt32 (hour_angle ⟨23, 59⟩) ∧
      inInt32 (tick_angle 11)) ∧
    inInt32 (-65535 * 68) ∧
    (|project 72 (-65535) 68 - 72| ≤ 68 ∧ inInt16 (project 72 (-65535) 68) ∧
      wrap16 (project 72 (-65535) 68) = project 72 (-65535) 68) ∧
    (|project (project 72 65535 (PLANET_OFFSET + PLANET_SPACING * (EARTH_INDEX : Int)))
          (-65535) MOON_ORBIT_RADIUS
        - project 72 65535 (PLANET_OFFSET + PLANET_SPACING * (EARTH_INDEX : Int))|
        ≤ MOON_ORBIT_RADIUS ∧
      inInt16 (project (project 72 65535 (PLANET_OFFSET + PLANET_SPACING * (EARTH_INDEX : Int)))
          (-65535) MOON_ORBIT_RADIUS)) :=
  no_overflow 23 59 11 (-65535) 65535 68 72 (by decide) (by decide) (by decide) (by decide)
    (by decide) (Or.inl (by decide)) (Or.inl rfl)

/-- C9: for every valid time, `calculate` stores in `planet_locations[2]` (the planet at
`EARTH_INDEX`) the point `CENTER + trig * 23 / TRIG_MAX_RATIO` of the Earth angle, and in
`moon_location` the point `planet_locations[2] + trig * 5 / TRIG_MAX_RATIO` of the moon
angle, around that stored point and not around `CENTER`; each moon coordinate is within 5
of the Earth coordinate.  The trig values lie in `[- TRIG_MAX_RATIO, TRIG_MAX_RATIO]` and
the divisions truncate. -/
theorem moon_orbits_earth (H : Host) (t : Now) (s : State)
    (hh : 0 ≤ t.now_tm.tm_hour ∧ t.now_tm.tm_hour ≤ 23)
    (hN : EARTH_INDEX < H.N_PLANETS) (hl : s.planet_locations.length = H.N_PLANETS)
    (hcos : ∀ a, - TRIG_MAX_RATIO ≤ H.cos_lookup a ∧ H.cos_lookup a ≤ TRIG_MAX_RATIO)
    (hsin : ∀ a, - TRIG_MAX_RATIO ≤ H.sin_lookup a ∧ H.sin_lookup a ≤ TRIG_MAX_RATIO) :
    ∃ s1 earth, calculate H t s = some s1 ∧
      s1.planet_locations[2]? = some earth ∧
      earth.x = 72 + (H.cos_lookup (t.get_planet_angle 2) * 23).tdiv 65535 ∧
      earth.y = 84 + (H.sin_lookup (t.get_planet_angle 2) * 23).tdiv 65535 ∧
      s1.moon_location.x = earth.x + (H.cos_lookup t.get_moon_angle * 5).tdiv 65535 ∧
      s1.moon_location.y = earth.y + (H.sin_lookup t.get_moon_angle * 5).tdiv 65535 ∧
      |s1.moon_location.x - earth.x| ≤ 5 ∧ |s1.moon_location.y - earth.y| ≤ 5 := by
  obtain ⟨sky, locs, -, -, hlo, hc⟩ := calculate_some H t s hh hN hl
  have hex : (planet_point H t EARTH_INDEX).x
      = project CENTER.x (H.cos_lookup (t.get_planet_angle EARTH_INDEX)) 23 := by
    obtain ⟨p0, p1⟩ := project_bound CENTER.x (H.cos_lookup (t.get_planet_angle EARTH_INDEX))
      23 (hcos _) (by norm_num)
    have hc2 : CENTER.x = 72 := rfl
    have e23 : PLANET_OFFSET + PLANET_SPACING * ((EARTH_INDEX : Nat) : Int) = 23 := by decide
    simp only [planet_point, e23]
    exact wrap16_of_inInt16 _ (by simp only [inInt16]; omega)
  have hey : (planet_point H t EARTH_INDEX).y
      = project CENTER.y (H.sin_lookup (t.get_planet_angle EARTH_INDEX)) 23 := by
    obtain ⟨p0, p1⟩ := project_bound CENTER.y (H.sin_lookup (t.get_planet_angle EARTH_INDEX))
      23 (hsin _) (by norm_num)
    have hc2 : CENTER.y = 84 := rfl
    have e23 : PLANET_OFFSET + PLANET_SPACING * ((EARTH_INDEX : Nat) : Int) = 23 := by decide
    simp only [planet_point, e23]
    exact wrap16_of_inInt16 _ (by simp only [inInt16]; omega)
  obtain ⟨ex0, ex1⟩ := project_bound CENTER.x
    (H.cos_lookup (t.get_planet_angle EARTH_INDEX)) 23 (hcos _) (by norm_num)
  obtain ⟨ey0, ey1⟩ := project_bound CENTER.y
    (H.sin_lookup (t.get_planet_angle EARTH_INDEX)) 23 (hsin _) (by norm_num)
  have cx : CENTER.x = 72 := rfl
  have cy : CENTER.y = 84 := rfl
  obtain ⟨mx0, mx1⟩ := project_bound (planet_point H t EARTH_INDEX).x
    (H.cos_lookup t.get_moon_angle) MOON_ORBIT_RADIUS (hcos _) (by decide)
  obtain ⟨my0, my1⟩ := project_bound (planet_point H t EARTH_INDEX).y
    (H.sin_lookup t.get_moon_angle) MOON_ORBIT_RADIUS (hsin _) (by decide)
  have r5 : MOON_ORBIT_RADIUS = 5 := rfl
  have r23 : PLANET_OFFSET + PLANET_SPACING * 2 = 23 := by decide
  have hmx : wrap16 (project (planet_point H t EARTH_INDEX).x
      (H.cos_lookup t.get_moon_angle) MOON_ORBIT_RADIUS)
      = project (planet_point H t EARTH_INDEX).x
          (H.cos_lookup t.get_moon_angle) MOON_ORBIT_RADIUS :=
    wrap16_of_inInt16 _ (by simp only [inInt16]; omega)
  have hmy : wrap16 (project (planet_point H t EARTH_INDEX).y
      (H.sin_lookup t.get_moon_angle) MOON_ORBIT_RADIUS)
      = project (planet_point H t EARTH_INDEX).y
          (H.sin_lookup t.get_moon_angle) MOON_ORBIT_RADIUS :=
    wrap16_of_inInt16 _ (by simp only [inInt16]; omega)
  refine ⟨_, planet_point H t EARTH_INDEX, hc, hlo EARTH_INDEX hN, hex, hey, hmx, hmy,
    ?_, ?_⟩
  · show |wrap16 _ - _| ≤ 5
    rw [hmx]
    exact abs_le.mpr ⟨by omega, by omega⟩
  · show |wrap16 _ - _| ≤ 5
    rw [hmy]
    exact abs_le.mpr ⟨by omega, by omega⟩

/-- The C9 statement at 12:30 on the sample host. -/
theorem moon_orbits_earth_witness :
    ∃ s1 earth, calculate sample_host (sample_now 12 30) (initial_state 8) = some s1 ∧
      s1.planet_locations[2]? = some earth ∧
      earth.x = 72 +
        (sample_host.cos_lookup ((sample_now 12 30).get_planet_angle 2) * 23).tdiv 65535 ∧
      earth.y = 84 +
        (sample_host.sin_lookup ((sample_now 12 30).get_planet_angle 2) * 23).tdiv 65535 ∧
      s1.moon_location.x = earth.x +
        (sample_host.cos_lookup (sample_now 12 30).get_moon_angle * 5).tdiv 65535 ∧
      s1.moon_location.y = earth.y +
        (sample_host.sin_lookup (sample_now 12 30).get_moon_angle * 5).tdiv 65535 ∧
      |s1.moon_location.x - earth.x| ≤ 5 ∧ |s1.moon_location.y - earth.y| ≤ 5 :=
  moon_orbits_earth sample_host (sample_now 12 30) (initial_state 8) (by decide) (by decide)
    (by decide) (fun a => by simp only [sample_host, TRIG_MAX_RATIO]; omega)
    (fun a => by simp only [sample_host, TRIG_MAX_RATIO]; omega)

/-- On the sample host at 12:30 the Earth is stored at `(62, 94)` and the moon at
`(60, 96)`: two pixels from the Earth, and not the point `(70, 86)` that the same moon
angle gives around `CENTER`. -/
theorem sample_moon_is_around_earth :
    (calculate sample_host (sample_now 12 30) (initial_state 8)).map
        (fun s1 => (s1.planet_locations[2]?, s1.moon_location))
      = some (some ⟨62, 94⟩, ⟨60, 96⟩) ∧
    72 + (sample_host.cos_lookup (sample_now 12 30).get_moon_angle * 5).tdiv 65535 = 70 ∧
    84 + (sample_host.sin_lookup (sample_now 12 30).get_moon_angle * 5).tdiv 65535 = 86 := by
  decide

/-! ## The animations -/

/-- Reading the first of two appended elements. -/
theorem getElem?_append_pair_fst {α : Type} (A : List α) (x y : α) :
    (A ++ [x, y])[A.length]? = some x := by
  rw [List.getElem?_append_right (le_refl _)]
  simp

/-- Reading the second of two appended elements. -/
theorem getElem?_append_pair_snd {α : Type} (A : List α) (x y : α) :
    (A ++ [x, y])[A.length + 1]? = some y := by
  rw [List.getElem?_append_right (by omega)]
  simp

/-- Overwriting the first of two appended elements. -/
theorem set_append_pair_fst {α : Type} (A : List α) (x y z : α) :
    (A ++ [x, y]).set A.length z = A ++ [z, y] := by
  induction A with
  | nil => rfl
  | cons a A ih => simp [ih]

/-- Overwriting the second of two appended elements. -/
theorem set_append_pair_snd {α : Type} (A : List α) (x y z : α) :
    (A ++ [x, y]).set (A.length + 1) z = A ++ [x, z] := by
  induction A with
  | nil => rfl
  | cons a A ih => simp [ih]

/-- The effect of `modify_animation` on the first of the two newest animation objects. -/
theorem modify_animation_fst (sky : Nat) (pl : List GPoint) (moon mn hr : GPoint)
    (ma ha : Option Nat) (A : List PropertyAnimation) (x y : PropertyAnimation)
    (d : List Nat) (dirty : Nat) (f : PropertyAnimation → PropertyAnimation) :
    modify_animation (some A.length) f ⟨sky, pl, moon, mn, hr, ma, ha, A ++ [x, y], d, dirty⟩
      = some ⟨sky, pl, moon, mn, hr, ma, ha, A ++ [f x, y], d, dirty⟩ := by
  simp only [modify_animation, Option.some_bind, getElem?_append_pair_fst,
    Option.map_some', set_append_pair_fst]

/-- The effect of `modify_animation` on the second of the two newest animation objects. -/
theorem modify_animation_snd (sky : Nat) (pl : List GPoint) (moon mn hr : GPoint)
    (ma ha : Option Nat) (A : List PropertyAnimation) (x y : PropertyAnimation)
    (d : List Nat) (dirty : Nat) (f : PropertyAnimation → PropertyAnimation) :
    modify_animation (some (A.length + 1)) f
        ⟨sky, pl, moon, mn, hr, ma, ha, A ++ [x, y], d, dirty⟩
      = some ⟨sky, pl, moon, mn, hr, ma, ha, A ++ [x, f y], d, dirty⟩ := by
  simp only [modify_animation, Option.some_bind, getElem?_append_pair_snd,
    Option.map_some', set_append_pair_snd]

/-- The state `calculate` returns, given the results of its three reads. -/
theorem calculate_of (H : Host) (t : Now) (s : State) (sky : Nat) (locs : List GPoint)
    (earth : GPoint) (hsky : sky_lookup t.now_tm.tm_hour = some sky)
    (hloop : planet_loop H t H.N_PLANETS s.planet_locations = some locs)
    (he : locs[EARTH_INDEX]? = some earth) :
    calculate H t s = some
      ⟨sky, locs,
        ⟨wrap16 (project earth.x (H.cos_lookup t.get_moon_angle) MOON_ORBIT_RADIUS),
         wrap16 (project earth.y (H.sin_lookup t.get_moon_angle) MOON_ORBIT_RADIUS)⟩,
        minute_position H t.now_tm, hour_position H t.now_tm,
        s.minute_animation, s.hour_animation, s.animations, s.destroyed, s.dirty⟩ := by
  simp only [calculate, hsky, hloop, he, Option.some_bind]

/-- On a valid hour and a well-formed state `animate` returns, and this is the state it
returns: the globals as `calculate` leaves them, and two new animation objects, from the
hand locations before the call to the ones `calculate` stored, with their destroy
handlers, scheduled. -/
theorem animate_some (H : Host) (t : Now) (s : State)
    (hh : 0 ≤ t.now_tm.tm_hour ∧ t.now_tm.tm_hour ≤ 23)
    (hN : EARTH_INDEX < H.N_PLANETS) (hl : s.planet_locations.length = H.N_PLANETS) :
    ∃ c, calculate H t s = some c ∧
      animate H t s = some { c with
        minute_animation := some s.animations.length
        hour_animation := some (s.animations.length + 1)
        animations := s.animations ++
          [{ subject := Hand.minute, values_from := s.minute_location,
             values_to := minute_position H t.now_tm,
             stopped := some StoppedHandler.destroy_minute_animation, scheduled := true },
           { subject := Hand.hour, values_from := s.hour_location,
             values_to := hour_position H t.now_tm,
             stopped := some StoppedHandler.destroy_hour_animation, scheduled := true }] } := by
  obtain ⟨sky, hsky, -⟩ := sky_lookup_some _ hh
  obtain ⟨locs, hloop, -, hlo, -⟩ :=
    planet_loop_spec H t s.planet_locations H.N_PLANETS (le_of_eq hl.symm)
  have he := hlo EARTH_INDEX hN
  refine ⟨_, calculate_of H t s sky locs _ hsky hloop he, ?_⟩
  simp only [animate, init_animations, property_animation_from, property_animation_to,
    animation_set_handlers, animation_schedule, modify_animation_fst,
    modify_animation_snd, Option.some_bind]
  have hcalc : ∀ s1 : State, s1.planet_locations = s.planet_locations →
      calculate H t s1 = some
        ⟨sky, locs,
          ⟨wrap16 (project (planet_point H t EARTH_INDEX).x (H.cos_lookup t.get_moon_angle)
              MOON_ORBIT_RADIUS),
           wrap16 (project (planet_point H t EARTH_INDEX).y (H.sin_lookup t.get_moon_angle)
              MOON_ORBIT_RADIUS)⟩,
          minute_position H t.now_tm, hour_position H t.now_tm,
          s1.minute_animation, s1.hour_animation, s1.animations, s1.destroyed, s1.dirty⟩ :=
    fun s1 hs1 => calculate_of H t s1 sky locs _ hsky (hs1 ▸ hloop) he
  rw [hcalc]
  · simp only [modify_animation_fst, modify_animation_snd, Option.some_bind]
  · rfl

/-- At full progress the interpolation is the end value, exactly. -/
theorem interpolate_max (a b : Int) : interpolate ANIMATION_NORMALIZED_MAX a b = b := by
  have e : (ANIMATION_NORMALIZED_MAX * (b - a)).tdiv ANIMATION_NORMALIZED_MAX = b - a :=
    Int.mul_tdiv_cancel_left (b - a) (by decide)
  unfold interpolate
  rw [e]
  omega

/-- At progress 0 the interpolation is the start value. -/
theorem interpolate_zero (a b : Int) : interpolate 0 a b = a := by
  simp [interpolate]

/-- The setter leaves the animation objects alone. -/
theorem gpoint_setter_animations (subject : Hand) (p : GPoint) (s : State) :
    (gpoint_setter subject p s).animations = s.animations := by
  cases subject <;> rfl

/-- Running a concatenation of event sequences is running them one after the other. -/
theorem run_append (H : Host) (es1 es2 : List Event) (s : State) :
    run H s (es1 ++ es2) = (run H s es1).bind fun s1 => run H s1 es2 := by
  induction es1 generalizing s with
  | nil => rfl
  | cons e es ih =>
    simp only [List.cons_append, run]
    cases step H s e with
    | none => rfl
    | some s1 =>
      simp only [Option.some_bind]
      exact ih s1

/-- A progress update of an existing animation hands the interpolated point to the
setter of its subject. -/
theorem step_update (H : Host) (s : State) (i : Nat) (d : Int) (a : PropertyAnimation)
    (hi : s.animations[i]? = some a) :
    step H s (Event.update i d) = some (gpoint_setter a.subject
      { x := interpolate d a.values_from.x a.values_to.x
        y := interpolate d a.values_from.y a.values_to.y } s) := by
  simp only [step, property_animation_update_gpoint, hi, Option.map_some']

/-- The setter marks the layer dirty once. -/
theorem gpoint_setter_dirty (subject : Hand) (p : GPoint) (s : State) :
    (gpoint_setter subject p s).dirty = s.dirty + 1 := by
  cases subject <;> rfl

/-- Any number of progress updates of two existing animations succeeds, leaves the
animation objects as they are and marks the layer dirty once per update. -/
theorem run_updates (H : Host) (L : List PropertyAnimation) (m h : Nat)
    (am ah : PropertyAnimation) (hm : L[m]? = some am) (hh : L[h]? = some ah)
    (ups : List (Hand × Int)) (s : State) (hs : s.animations = L) :
    ∃ s1, run H s (update_events m h ups) = some s1 ∧ s1.animations = L ∧
      s1.dirty = s.dirty + ups.length := by
  induction ups generalizing s with
  | nil => exact ⟨s, rfl, hs, rfl⟩
  | cons u ups ih =>
    obtain ⟨hand, d⟩ := u
    have hstep : ∃ s1, step H s (Event.update (handle_of m h hand) d) = some s1 ∧
        s1.animations = L ∧ s1.dirty = s.dirty + 1 := by
      cases hand with
      | minute =>
        exact ⟨_, step_update H s m d am (hs ▸ hm),
          (gpoint_setter_animations _ _ _).trans hs, gpoint_setter_dirty _ _ _⟩
      | hour =>
        exact ⟨_, step_update H s h d ah (hs ▸ hh),
          (gpoint_setter_animations _ _ _).trans hs, gpoint_setter_dirty _ _ _⟩
    obtain ⟨s1, hs1, hs1L, hs1d⟩ := hstep
    obtain ⟨s2, hs2, hs2L, hs2d⟩ := ih s1 hs1L
    refine ⟨s2, ?_, hs2L, ?_⟩
    · simp only [update_events, List.map_cons, run, hs1, Option.some_bind]
      exact hs2
    · rw [hs2d, hs1d, List.length_cons]
      omega

/-- An update of the minute animation followed by one of the hour animation, both at
progress `d`, leaves each hand on the point interpolated at `d` between the start and the
end value of its animation, whatever the hand locations were before. -/
theorem run_pair (H : Host) (L : List PropertyAnimation) (m h : Nat)
    (am ah : PropertyAnimation) (hm : L[m]? = some am) (hh : L[h]? = some ah)
    (hsm : am.subject = Hand.minute) (hsh : ah.subject = Hand.hour)
    (d : Int) (s : State) (hs : s.animations = L) :
    ∃ s2, run H s [Event.update m d, Event.update h d] = some s2 ∧
      s2.animations = L ∧
      s2.minute_location =
        { x := interpolate d am.values_from.x am.values_to.x
          y := interpolate d am.values_from.y am.values_to.y } ∧
      s2.hour_location =
        { x := interpolate d ah.values_from.x ah.values_to.x
          y := interpolate d ah.values_from.y ah.values_to.y } ∧
      s2.dirty = s.dirty + 2 := by
  have h1 := step_update H s m d am (hs ▸ hm)
  rw [hsm] at h1
  have h2 := step_update H
    (gpoint_setter Hand.minute
      { x := interpolate d am.values_from.x am.values_to.x
        y := interpolate d am.values_from.y am.values_to.y } s)
    h d ah (by rw [gpoint_setter_animations, hs]; exact hh)
  rw [hsh] at h2
  have hrun : run H s [Event.update m d, Event.update h d] = some
      (gpoint_setter Hand.hour
        { x := interpolate d ah.values_from.x ah.values_to.x
          y := interpolate d ah.values_from.y ah.values_to.y }
        (gpoint_setter Hand.minute
          { x := interpolate d am.values_from.x am.values_to.x
            y := interpolate d am.values_from.y am.values_to.y }
          s)) := by
    simp only [run, h1, Option.some_bind, h2]
  exact ⟨_, hrun, hs, rfl, rfl, rfl⟩

/-- C2: if the hand locations hold the positions of the instant `t0` and a minute tick
runs `animate` at the instant `t1`, the two new transitions get `from` = the positions of
`t0` and `to` = the positions of `t1` (the ones `calculate` stores at `t1`).  After any
sequence of intermediate progress updates and then an update of both transitions at an
arbitrary progress `d`, `gpoint_setter` has put each hand on
`from + d * (to - from) / 65535` and has marked the layer dirty once per update; after the
completing updates (progress `ANIMATION_NORMALIZED_MAX`) that follow, each hand is on the
position of `t1` exactly. -/
theorem transition_settles_on_new_position (H : Host) (t0 t1 : Now) (s : State)
    (ups : List (Hand × Int)) (d : Int)
    (hh : 0 ≤ t1.now_tm.tm_hour ∧ t1.now_tm.tm_hour ≤ 23)
    (hN : EARTH_INDEX < H.N_PLANETS) (hl : s.planet_locations.length = H.N_PLANETS)
    (hmin : s.minute_location = minute_position H t0.now_tm)
    (hhour : s.hour_location = hour_position H t0.now_tm) :
    ∃ c s1 am ah s2 s3,
      calculate H t1 s = some c ∧
      c.minute_location = minute_position H t1.now_tm ∧
      c.hour_location = hour_position H t1.now_tm ∧
      animate H t1 s = some s1 ∧
      s1.minute_animation = some s.animations.length ∧
      s1.hour_animation = some (s.animations.length + 1) ∧
      s1.animations[s.animations.length]? = some am ∧
      s1.animations[s.animations.length + 1]? = some ah ∧
      am.subject = Hand.minute ∧ am.values_from = minute_position H t0.now_tm ∧
      am.values_to = minute_position H t1.now_tm ∧
      ah.subject = Hand.hour ∧ ah.values_from = hour_position H t0.now_tm ∧
      ah.values_to = hour_position H t1.now_tm ∧
      run H s1 (update_events s.animations.length (s.animations.length + 1) ups ++
        [Event.update s.animations.length d,
         Event.update (s.animations.length + 1) d]) = some s2 ∧
      s2.minute_location.x = (minute_position H t0.now_tm).x +
        (d * ((minute_position H t1.now_tm).x - (minute_position H t0.now_tm).x)).tdiv 65535 ∧
      s2.minute_location.y = (minute_position H t0.now_tm).y +
        (d * ((minute_position H t1.now_tm).y - (minute_position H t0.now_tm).y)).tdiv 65535 ∧
      s2.hour_location.x = (hour_position H t0.now_tm).x +
        (d * ((hour_position H t1.now_tm).x - (hour_position H t0.now_tm).x)).tdiv 65535 ∧
      s2.hour_location.y = (hour_position H t0.now_tm).y +
        (d * ((hour_position H t1.now_tm).y - (hour_position H t0.now_tm).y)).tdiv 65535 ∧
      s2.dirty = s.dirty + (ups.length + 2) ∧
      run H s1 (update_events s.animations.length (s.animations.length + 1) ups ++
        [Event.update s.animations.length d,
         Event.update (s.animations.length + 1) d,
         Event.update s.animations.length ANIMATION_NORMALIZED_MAX,
         Event.update (s.animations.length + 1) ANIMATION_NORMALIZED_MAX]) = some s3 ∧
      s3.minute_location = minute_position H t1.now_tm ∧
      s3.hour_location = hour_position H t1.now_tm ∧
      s3.dirty = s.dirty + (ups.length + 4) := by
  obtain ⟨sky, locs, -, -, -, hc⟩ := calculate_some H t1 s hh hN hl
  obtain ⟨c, hc2, ha⟩ := animate_some H t1 s hh hN hl
  have hcc := Option.some.inj (hc.symm.trans hc2)
  have hcm : c.minute_location = minute_position H t1.now_tm := by rw [← hcc]
  have hch : c.hour_location = hour_position H t1.now_tm := by rw [← hcc]
  have hcd : c.dirty = s.dirty := by rw [← hcc]
  have hL1 := getElem?_append_pair_fst s.animations
    ({ subject := Hand.minute, values_from := s.minute_location,
       values_to := minute_position H t1.now_tm,
       stopped := some StoppedHandler.destroy_minute_animation,
       scheduled := true } : PropertyAnimation)
    { subject := Hand.hour, values_from := s.hour_location,
      values_to := hour_position H t1.now_tm,
      stopped := some StoppedHandler.destroy_hour_animation, scheduled := true }
  have hL2 := getElem?_append_pair_snd s.animations
    ({ subject := Hand.minute, values_from := s.minute_location,
       values_to := minute_position H t1.now_tm,
       stopped := some StoppedHandler.destroy_minute_animation,
       scheduled := true } : PropertyAnimation)
    { subject := Hand.hour, values_from := s.hour_location,
      values_to := hour_position H t1.now_tm,
      stopped := some StoppedHandler.destroy_hour_animation, scheduled := true }
  obtain ⟨s1, hs1, hs1L, hs1m, hs1h, hs1d⟩ : ∃ s1, animate H t1 s = some s1 ∧
      s1.animations = s.animations ++
        [{ subject := Hand.minute, values_from := s.minute_location,
           values_to := minute_position H t1.now_tm,
           stopped := some StoppedHandler.destroy_minute_animation, scheduled := true },
         { subject := Hand.hour, values_from := s.hour_location,
           values_to := hour_position H t1.now_tm,
           stopped := some StoppedHandler.destroy_hour_animation, scheduled := true }] ∧
      s1.minute_animation = some s.animations.length ∧
      s1.hour_animation = some (s.animations.length + 1) ∧
      s1.dirty = s.dirty := ⟨_, ha, rfl, rfl, rfl, hcd⟩
  obtain ⟨u, hrun, huL, hud⟩ := run_updates H _ _ _ _ _ hL1 hL2 ups s1 hs1L
  obtain ⟨s2, hmid, hs2L, hs2m, hs2h, hs2d⟩ :=
    run_pair H _ _ _ _ _ hL1 hL2 rfl rfl d u huL
  obtain ⟨s3, hfin, -, hs3m, hs3h, hs3d⟩ :=
    run_pair H _ _ _ _ _ hL1 hL2 rfl rfl ANIMATION_NORMALIZED_MAX s2 hs2L
  simp only [interpolate_max] at hs3m hs3h
  simp only [hmin] at hs2m
  simp only [hhour] at hs2h
  refine ⟨c, s1, _, _, s2, s3, hc2, hcm, hch, hs1, hs1m, hs1h, hs1L ▸ hL1, hs1L ▸ hL2, rfl,
    hmin, rfl, rfl, hhour, rfl, ?_, ?_, ?_, ?_, ?_, ?_, ?_, hs3m, hs3h, ?_⟩
  · rw [run_append, hrun]
    exact hmid
  · rw [hs2m]; rfl
  · rw [hs2m]; rfl
  · rw [hs2h]; rfl
  · rw [hs2h]; rfl
  · rw [hs2d, hud, hs1d]; omega
  · have e : ([Event.update s.animations.length d,
          Event.update (s.animations.length + 1) d,
          Event.update s.animations.length ANIMATION_NORMALIZED_MAX,
          Event.update (s.animations.length + 1) ANIMATION_NORMALIZED_MAX] : List Event)
        = [Event.update s.animations.length d, Event.update (s.animations.length + 1) d] ++
          [Event.update s.animations.length ANIMATION_NORMALIZED_MAX,
           Event.update (s.animations.length + 1) ANIMATION_NORMALIZED_MAX] := rfl
    rw [e, run_append, hrun, Option.some_bind, run_append, hmid]
    exact hfin
  · rw [hs3d, hs2d, hud, hs1d]; omega

/-- The C2 statement for the tick from 08:00 to 08:01 on the sample host, with four
intermediate updates and then both transitions at progress 30000. -/
theorem transition_settles_on_new_position_witness :
    ∃ c s1 am ah s2 s3,
      calculate sample_host (sample_now 8 1) sample_state = some c ∧
      c.minute_location = minute_position sample_host (sample_now 8 1).now_tm ∧
      c.hour_location = hour_position sample_host (sample_now 8 1).now_tm ∧
      animate sample_host (sample_now 8 1) sample_state = some s1 ∧
      s1.minute_animation = some sample_state.animations.length ∧
      s1.hour_animation = some (sample_state.animations.length + 1) ∧
      s1.animations[sample_state.animations.length]? = some am ∧
      s1.animations[sample_state.animations.length + 1]? = some ah ∧
      am.subject = Hand.minute ∧
      am.values_from = minute_position sample_host (sample_now 8 0).now_tm ∧
      am.values_to = minute_position sample_host (sample_now 8 1).now_tm ∧
      ah.subject = Hand.hour ∧
      ah.values_from = hour_position sample_host (sample_now 8 0).now_tm ∧
      ah.values_to = hour_position sample_host (sample_now 8 1).now_tm ∧
      run sample_host s1
        (update_events sample_state.animations.length (sample_state.animations.length + 1)
            [(Hand.minute, 100), (Hand.hour, 30000), (Hand.minute, 65535), (Hand.minute, 12)] ++
          [Event.update sample_state.animations.length 30000,
           Event.update (sample_state.animations.length + 1) 30000]) = some s2 ∧
      s2.minute_location.x = (minute_position sample_host (sample_now 8 0).now_tm).x +
        (30000 * ((minute_position sample_host (sample_now 8 1).now_tm).x
          - (minute_position sample_host (sample_now 8 0).now_tm).x)).tdiv 65535 ∧
      s2.minute_location.y = (minute_position sample_host (sample_now 8 0).now_tm).y +
        (30000 * ((minute_position sample_host (sample_now 8 1).now_tm).y
          - (minute_position sample_host (sample_now 8 0).now_tm).y)).tdiv 65535 ∧
      s2.hour_location.x = (hour_position sample_host (sample_now 8 0).now_tm).x +
        (30000 * ((hour_position sample_host (sample_now 8 1).now_tm).x
          - (hour_position sample_host (sample_now 8 0).now_tm).x)).tdiv 65535 ∧
      s2.hour_location.y = (hour_position sample_host (sample_now 8 0).now_tm).y +
        (30000 * ((hour_position sample_host (sample_now 8 1).now_tm).y
          - (hour_position sample_host (sample_now 8 0).now_tm).y)).tdiv 65535 ∧
      s2.dirty = sample_state.dirty +
        (([(Hand.minute, 100), (Hand.hour, 30000), (Hand.minute, 65535), (Hand.minute, 12)] :
          List (Hand × Int)).length + 2) ∧
      run sample_host s1
        (update_events sample_state.animations.length (sample_state.animations.length + 1)
            [(Hand.minute, 100), (Hand.hour, 30000), (Hand.minute, 65535), (Hand.minute, 12)] ++
          [Event.update sample_state.animations.length 30000,
           Event.update (sample_state.animations.length + 1) 30000,
           Event.update sample_state.animations.length ANIMATION_NORMALIZED_MAX,
           Event.update (sample_state.animations.length + 1) ANIMATION_NORMALIZED_MAX])
        = some s3 ∧
      s3.minute_location = minute_position sample_host (sample_now 8 1).now_tm ∧
      s3.hour_location = hour_position sample_host (sample_now 8 1).now_tm ∧
      s3.dirty = sample_state.dirty +
        (([(Hand.minute, 100), (Hand.hour, 30000), (Hand.minute, 65535), (Hand.minute, 12)] :
          List (Hand × Int)).length + 4) :=
  transition_settles_on_new_position sample_host (sample_now 8 0) (sample_now 8 1)
    sample_state [(Hand.minute, 100), (Hand.hour, 30000), (Hand.minute, 65535), (Hand.minute, 12)]
    30000 (by decide) (by decide) (by decide) (by decide) (by decide)

/-- The positions of 08:00 and of 08:01 on the sample host differ, so the sample
transition moves the minute hand. -/
theorem sample_positions_differ :
    minute_position sample_host (sample_now 8 0).now_tm
      ≠ minute_position sample_host (sample_now 8 1).now_tm := by
  decide

/-- The tick from 08:00 to 08:10 on the sample host, step by step: `animate` leaves the
hands where `calculate` put them, on `(96, 60)` and `(70, 86)`; the updates at progress 0
put them back on the positions of 08:00, `(86, 70)` and `(69, 87)`; the updates at
progress 30000 put the minute hand on `(90, 66)`; the completing updates put the hands on
`(96, 60)` and `(70, 86)`. -/
theorem sample_transition_moves_the_hands :
    (animate sample_host (sample_now 8 10) sample_state).map
        (fun s => (s.minute_location, s.hour_location, s.dirty))
      = some (⟨96, 60⟩, ⟨70, 86⟩, 0) ∧
    ((animate sample_host (sample_now 8 10) sample_state).bind fun s1 =>
        run sample_host s1 [Event.update 0 0, Event.update 1 0]).map
        (fun s => (s.minute_location, s.hour_location, s.dirty))
      = some (⟨86, 70⟩, ⟨69, 87⟩, 2) ∧
    ((animate sample_host (sample_now 8 10) sample_state).bind fun s1 =>
        run sample_host s1 [Event.update 0 0, Event.update 1 0,
          Event.update 0 30000, Event.update 1 30000]).map
        (fun s => (s.minute_location, s.hour_location, s.dirty))
      = some (⟨90, 66⟩, ⟨69, 87⟩, 4) ∧
    ((animate sample_host (sample_now 8 10) sample_state).bind fun s1 =>
        run sample_host s1 [Event.update 0 0, Event.update 1 0,
          Event.update 0 30000, Event.update 1 30000,
          Event.update 0 ANIMATION_NORMALIZED_MAX,
          Event.update 1 ANIMATION_NORMALIZED_MAX]).map
        (fun s => (s.minute_location, s.hour_location, s.dirty))
      = some (⟨96, 60⟩, ⟨70, 86⟩, 6) := by
  decide

/-- After a tick, the stop of the new minute animation and the stop of the new hour
animation, in this order and with no other tick in between, destroy exactly the two new
handles, each once. -/
theorem tick_then_stops_destroy_each_once (H : Host) (t : Now) (s : State)
    (hh : 0 ≤ t.now_tm.tm_hour ∧ t.now_tm.tm_hour ≤ 23)
    (hN : EARTH_INDEX < H.N_PLANETS) (hl : s.planet_locations.length = H.N_PLANETS) :
    (run H s [Event.tick t, Event.stopped s.animations.length,
        Event.stopped (s.animations.length + 1)]).map (fun s1 => s1.destroyed)
      = some (s.destroyed ++ [s.animations.length, s.animations.length + 1]) := by
  obtain ⟨c, hc, ha⟩ := animate_some H t s hh hN hl
  obtain ⟨sky, locs, -, -, -, hc2⟩ := calculate_some H t s hh hN hl
  have hcd : c.destroyed = s.destroyed := by
    rw [← Option.some.inj (hc2.symm.trans hc)]
  simp only [run, step, ha, Option.some_bind, getElem?_append_pair_fst,
    getElem?_append_pair_snd, Option.map_some', destroy_minute_animation,
    destroy_hour_animation, property_animation_destroy, hcd, List.append_assoc,
    List.singleton_append]

/-- C7, the failing run: on the sample host, two ticks followed by the stop of the first
minute animation (handle 0) and the stop of the second (handle 2) destroy handle 2 twice
and handle 0 never. -/
theorem overlapping_ticks_destroy_newest_twice :
    (run sample_host sample_state
        [Event.tick (sample_now 8 1), Event.tick (sample_now 8 2),
         Event.stopped 0, Event.stopped 2]).map (fun s => s.destroyed) = some [2, 2] ∧
    (run sample_host sample_state
        [Event.tick (sample_now 8 1), Event.tick (sample_now 8 2),
         Event.stopped 0]).map (fun s => s.destroyed) = some [2] ∧
    ([2, 2] : List Nat).count 0 = 0 ∧ ([2, 2] : List Nat).count 2 = 2 := by
  decide

end PebbleAmbient
